import Mathlib

/-!
Verification development for the PC-assembler bot's allocation engine
(`bot/service.py`, class `PcAssemblerService`).

Python components are dictionaries; we model them as a structure of
optional fields covering exactly the keys the service reads.  Prices,
clocks, capacities and utilities are modelled as rationals (`ℚ`): the
Python code computes with floats, and the claims under study are about
the structural logic of the computation, not float rounding.

The external ILP backend (OR-Tools / SCIP) is not code of this
repository; it is modelled as an oracle parameter.  An oracle takes the
per-category candidate lists, an optional minimum-spend floor and a
budget ceiling, and returns either a selection (one candidate index per
category) or `none` (the INFEASIBLE verdict).  `OracleSound` states the
contract the code relies on: a returned selection picks exactly one
in-range candidate per category and satisfies the price constraints.
`bruteSolve` is a concrete executable oracle (exhaustive enumeration)
used to evaluate the engine on concrete inputs.
-/

namespace PcAssembler

/-- A catalog part: one Python dict with the keys `service.py` reads.
`price` is `none` when the key is missing or null.  The Python key
`type` (used by `case` and `storage` parts) is modelled as `ctype`;
`memory` (the video-card VRAM amount) as `memoryGb`. -/
structure Component where
  name : String := ""
  price : Option ℚ := none
  core_count : Option ℚ := none
  boost_clock : Option ℚ := none
  core_clock : Option ℚ := none
  memoryGb : Option ℚ := none
  modules : Option (List ℚ) := none
  speed : Option (List ℚ) := none
  form_factor : Option String := none
  wattage : Option ℚ := none
  efficiency : Option String := none
  ctype : Option String := none
  capacity : Option ℚ := none
  deriving Repr, DecidableEq

/-- `charsPre pat s` : the char list `pat` is an initial segment of `s`. -/
def charsPre : List Char → List Char → Bool
  | [], _ => true
  | _ :: _, [] => false
  | p :: ps, c :: cs => p == c && charsPre ps cs

/-- `charsSub pat s` : `pat` occurs as a contiguous sublist of `s`. -/
def charsSub (pat : List Char) : List Char → Bool
  | [] => pat.isEmpty
  | c :: cs => charsPre pat (c :: cs) || charsSub pat cs

/-- Python's `pat in s` on strings: substring containment. -/
def strHasSub (s pat : String) : Bool := charsSub pat.data s.data

/-- Python's `str.lower()` (ASCII is all the code needs). -/
def strLower (s : String) : String := String.mk (s.data.map Char.toLower)

/-- `GOAL_ALLOCATIONS["universal"]`: importance coefficients. -/
def universalGoalWeights : List (String × ℚ) :=
  [("cpu", 25/100), ("video_card", 20/100), ("memory", 15/100),
   ("storage", 15/100), ("motherboard", 10/100), ("power_supply", 8/100),
   ("case", 7/100)]

/-- `GOAL_ALLOCATIONS`: goal-specific component importance coefficients. -/
def GOAL_ALLOCATIONS : List (String × List (String × ℚ)) :=
  [("games",
    [("cpu", 20/100), ("video_card", 35/100), ("memory", 10/100),
     ("storage", 10/100), ("motherboard", 10/100), ("power_supply", 8/100),
     ("case", 7/100)]),
   ("office",
    [("cpu", 25/100), ("video_card", 10/100), ("memory", 15/100),
     ("storage", 20/100), ("motherboard", 12/100), ("power_supply", 8/100),
     ("case", 10/100)]),
   ("graphics",
    [("cpu", 25/100), ("video_card", 30/100), ("memory", 15/100),
     ("storage", 12/100), ("motherboard", 8/100), ("power_supply", 5/100),
     ("case", 5/100)]),
   ("video",
    [("cpu", 30/100), ("video_card", 25/100), ("memory", 15/100),
     ("storage", 15/100), ("motherboard", 5/100), ("power_supply", 5/100),
     ("case", 5/100)]),
   ("programming",
    [("cpu", 30/100), ("video_card", 10/100), ("memory", 20/100),
     ("storage", 15/100), ("motherboard", 10/100), ("power_supply", 8/100),
     ("case", 7/100)]),
   ("universal", universalGoalWeights)]

/-- `BUDGET_ALLOCATIONS["universal"]`: budget share recommendations. -/
def universalBudgetWeights : List (String × ℚ) :=
  [("cpu", 25/100), ("video_card", 25/100), ("memory", 15/100),
   ("storage", 15/100), ("motherboard", 10/100), ("power_supply", 5/100),
   ("case", 5/100)]

/-- `BUDGET_ALLOCATIONS`: budget allocation recommendations by goal. -/
def BUDGET_ALLOCATIONS : List (String × List (String × ℚ)) :=
  [("games",
    [("cpu", 20/100), ("video_card", 40/100), ("memory", 10/100),
     ("storage", 10/100), ("motherboard", 10/100), ("power_supply", 7/100),
     ("case", 3/100)]),
   ("office",
    [("cpu", 30/100), ("video_card", 10/100), ("memory", 20/100),
     ("storage", 20/100), ("motherboard", 10/100), ("power_supply", 5/100),
     ("case", 5/100)]),
   ("graphics",
    [("cpu", 25/100), ("video_card", 35/100), ("memory", 15/100),
     ("storage", 10/100), ("motherboard", 5/100), ("power_supply", 5/100),
     ("case", 5/100)]),
   ("video",
    [("cpu", 35/100), ("video_card", 25/100), ("memory", 15/100),
     ("storage", 10/100), ("motherboard", 5/100), ("power_supply", 5/100),
     ("case", 5/100)]),
   ("programming",
    [("cpu", 30/100), ("video_card", 15/100), ("memory", 25/100),
     ("storage", 15/100), ("motherboard", 5/100), ("power_supply", 5/100),
     ("case", 5/100)]),
   ("universal", universalBudgetWeights)]

/-- `CATEGORY_TRANSLATIONS`: Russian labels for categories. -/
def CATEGORY_TRANSLATIONS : List (String × String) :=
  [("cpu", "Процессор"), ("memory", "Оперативная память"),
   ("motherboard", "Материнская плата"), ("power_supply", "Блок питания"),
   ("case", "Корпус"), ("video_card", "Видеокарта"),
   ("storage", "Накопитель")]

/-- `GOAL_TRANSLATIONS`: Russian labels for goals. -/
def GOAL_TRANSLATIONS : List (String × String) :=
  [("games", "Игровой"), ("office", "Офисный"), ("graphics", "Для графики"),
   ("video", "Для видеомонтажа"), ("programming", "Для программирования"),
   ("universal", "Универсальный")]

/-- Python `dict.get(k, d)` on an association list. -/
def alistGet {α : Type} (l : List (String × α)) (k : String) (d : α) : α :=
  match l.find? (fun p => p.1 == k) with
  | some p => p.2
  | none => d

/-- `GOAL_ALLOCATIONS.get(goal, GOAL_ALLOCATIONS["universal"])`. -/
def goalWeightsFor (goal : String) : List (String × ℚ) :=
  alistGet GOAL_ALLOCATIONS goal universalGoalWeights

/-- `BUDGET_ALLOCATIONS.get(goal, BUDGET_ALLOCATIONS["universal"])`. -/
def budgetWeightsFor (goal : String) : List (String × ℚ) :=
  alistGet BUDGET_ALLOCATIONS goal universalBudgetWeights

/-- `goal_weights.get(category, 0.1)`: the importance coefficient. -/
def importanceOf (goal category : String) : ℚ :=
  alistGet (goalWeightsFor goal) category (1/10)

/-- `budget_allocation.get(category, 0.1)`: the budget share. -/
def budgetWeightOf (goal category : String) : ℚ :=
  alistGet (budgetWeightsFor goal) category (1/10)

/-- `PcAssemblerService._calculate_base_utility`: category-specific
base utility, `none` when the price is missing or non-positive. -/
def calculate_base_utility (c : Component) (category : String) : Option ℚ :=
  match c.price with
  | none => none
  | some price =>
    if price ≤ 0 then none
    else
      let baseU : ℚ := 50
      if category == "cpu" then
        let coreCount := c.core_count.getD 4
        let boostClock := c.boost_clock.getD (c.core_clock.getD 3)
        some (baseU + coreCount * boostClock * 2)
      else if category == "video_card" then
        let mem := c.memoryGb.getD 4
        let boostClock := c.boost_clock.getD (c.core_clock.getD 1000)
        some (baseU + mem * 5 + boostClock / 100)
      else if category == "memory" then
        match c.modules, c.speed with
        | some ms, some sp =>
          let totalSize : ℚ :=
            match ms with
            | m0 :: m1 :: _ => m0 * m1
            | _ => 8
          let speedV : ℚ :=
            match sp with
            | _ :: s1 :: _ => s1
            | _ => 3000
          some (baseU + totalSize * 2 + speedV / 100)
        | _, _ => some baseU
      else if category == "motherboard" then
        let ff := c.form_factor.getD ""
        let ffScore : ℚ :=
          if strHasSub ff "ATX" then 20
          else if strHasSub ff "Micro ATX" then 15
          else if strHasSub ff "Mini ITX" then 10
          else 0
        some (baseU + ffScore)
      else if category == "power_supply" then
        let wattage := c.wattage.getD 500
        let eff := strLower (c.efficiency.getD "")
        let effScore : ℚ :=
          if strHasSub eff "titanium" then 30
          else if strHasSub eff "platinum" then 25
          else if strHasSub eff "gold" then 20
          else if strHasSub eff "silver" then 15
          else if strHasSub eff "bronze" then 10
          else 0
        some (baseU + wattage / 20 + effScore)
      else if category == "case" then
        let caseType := c.ctype.getD ""
        let typeScore : ℚ :=
          if strHasSub caseType "Full Tower" then 20
          else if strHasSub caseType "Mid Tower" then 15
          else if strHasSub caseType "Mini Tower" then 10
          else 0
        some (baseU + typeScore)
      else if category == "storage" then
        let capacity := c.capacity.getD 500
        let st := strLower (c.ctype.getD "")
        let typeScore : ℚ :=
          if strHasSub st "ssd" then 20
          else if strHasSub st "nvme" then 30
          else 0
        some (baseU + capacity / 100 + typeScore)
      else
        some baseU

/-- The price-factor step function of `_calculate_utility`
(lines 376-412): three budget tiers, thresholds as multiples of the
category's recommended budget. -/
def priceFactor (price categoryBudget budget : ℚ) : ℚ :=
  if budget ≥ 2000 then
    if price > categoryBudget * 2 then 6/10
    else if price > categoryBudget * (15/10) then 8/10
    else if price > categoryBudget then 9/10
    else if price ≥ categoryBudget * (7/10) then 12/10
    else if price ≥ categoryBudget * (4/10) then 1
    else 7/10
  else if budget ≥ 1000 then
    if price > categoryBudget * (15/10) then 6/10
    else if price > categoryBudget * (12/10) then 8/10
    else if price > categoryBudget then 9/10
    else if price ≥ categoryBudget * (6/10) then 11/10
    else if price ≥ categoryBudget * (3/10) then 1
    else 8/10
  else
    if price > categoryBudget * (12/10) then 5/10
    else if price > categoryBudget then 7/10
    else if price ≥ categoryBudget * (8/10) then 1
    else if price ≥ categoryBudget * (5/10) then 9/10
    else 8/10

/-- `PcAssemblerService._calculate_utility`: final utility
`base_utility * w^2 * price_factor + price_bonus`. -/
def calculate_utility (c : Component) (category goal : String)
    (budget : ℚ) : Option ℚ :=
  match calculate_base_utility c category with
  | none => none
  | some baseU =>
    let price := c.price.getD 0
    let categoryWeight := importanceOf goal category
    let categoryBudget := budgetWeightOf goal category * budget
    let pf := priceFactor price categoryBudget budget
    let priceBonus : ℚ :=
      if budget ≥ 1500 then min (price / 100) (categoryBudget / 50) else 0
    some (baseU * categoryWeight ^ 2 * pf + priceBonus)

/-- Stable insertion of `x` into `l`: `x` goes before the first element
`y` with `le x y`.  With `le = (key · ≤ key ·)` this reproduces the
stability of Python's `list.sort`. -/
def insertStable {α : Type} (le : α → α → Bool) (x : α) : List α → List α
  | [] => [x]
  | y :: ys => if le x y then x :: y :: ys else y :: insertStable le x ys

/-- Stable insertion sort, modelling Python's `list.sort(key=...)`. -/
def sortStable {α : Type} (le : α → α → Bool) : List α → List α
  | [] => []
  | x :: xs => insertStable le x (sortStable le xs)

/-- The sort key `float(x.get('price', 0))`. -/
def priceKey (c : Component) : ℚ := c.price.getD 0

/-- Python slicing `l[::k]` for a step `k ≥ 1`: elements at indices
`0, k, 2k, ...`. -/
def sliceStep {α : Type} (k : ℕ) : List α → List α
  | [] => []
  | x :: xs => x :: sliceStep k (xs.drop (k - 1))
termination_by l => l.length
decreasing_by
  simp only [List.length_drop, List.length_cons]
  omega

/-- One category's pass of `_filter_components_by_goal`: price-range
filter, high-end/balanced restratification for budgets ≥ 1500, then the
1000-item cap (Python sorts ascending by price in both cap branches). -/
def filterCategory (items : List Component) (categoryBudget budget : ℚ) :
    List Component :=
  let maxPrice :=
    if budget ≥ 2000 then categoryBudget * 3
    else if budget ≥ 1000 then categoryBudget * (25/10)
    else categoryBudget * 2
  let filtered := items.filter (fun it =>
    match it.price with
    | none => false
    | some p => decide (0 < p) && decide (p ≤ maxPrice))
  let filtered :=
    if budget ≥ 1500 ∧ ¬ filtered.isEmpty then
      let sortedDesc := sortStable (fun a b => priceKey b ≤ priceKey a) filtered
      let highEnd := sortedDesc.take 100
      let remaining := sortedDesc.drop 100
      if ¬ remaining.isEmpty then
        let remSorted := sortStable (fun a b => priceKey a ≤ priceKey b) remaining
        let step := max 1 (remSorted.length / 900)
        highEnd ++ sliceStep step remSorted
      else highEnd
    else filtered
  if filtered.length > 1000 then
    (sortStable (fun a b => priceKey a ≤ priceKey b) filtered).take 1000
  else filtered

/-- `PcAssemblerService._filter_components_by_goal`: the component dict
is an association list (Python dicts preserve insertion order); a
category is kept only when its filtered list is non-empty. -/
def filter_components_by_goal (components : List (String × List Component))
    (goal : String) (budget : ℚ) : List (String × List Component) :=
  components.filterMap (fun p =>
    let categoryBudget := budgetWeightOf goal p.1 * budget
    let fi := filterCategory p.2 categoryBudget budget
    if fi.isEmpty then none else some (p.1, fi))

/-- `item_with_utility`: a component together with its computed
`utility` value. -/
structure Scored where
  comp : Component
  utility : ℚ
  deriving Repr, DecidableEq

/-- The scoring loop of `generate_pc_build` (lines 530-554) for one
category: drop missing/non-positive prices, compute utility, drop
undefined or non-positive utilities. -/
def scoreItems (items : List Component) (category goal : String)
    (budget : ℚ) : List Scored :=
  items.filterMap (fun it =>
    match it.price with
    | none => none
    | some p =>
      if p ≤ 0 then none
      else
        match calculate_utility it category goal budget with
        | none => none
        | some u => if u ≤ 0 then none else some ⟨it, u⟩)

/-- `valid_components` as built by `generate_pc_build`: filter each
category by goal/budget, score, and keep only non-empty categories. -/
def validComponentsOf (components : List (String × List Component))
    (goal : String) (budget : ℚ) : List (String × List Scored) :=
  (filter_components_by_goal components goal budget).filterMap (fun p =>
    let vi := scoreItems p.2 p.1 goal budget
    if vi.isEmpty then none else some (p.1, vi))

/-- The mandatory categories (line 568). -/
def requiredCategories : List String :=
  ["cpu", "memory", "motherboard", "power_supply", "case"]

/-- `required_categories - set(valid_components.keys())`.  Python
iterates a set whose order is unspecified; we fix the declaration order
of `required_categories`. -/
def missingCategoriesOf (valid : List (String × List Scored)) : List String :=
  requiredCategories.filter (fun rc => ¬ valid.any (fun p => p.1 == rc))

/-- The three result dict shapes of the service: `OPTIMAL` (goal label,
Russian goal label, selected components in category order, total price,
total utility, remaining budget, budget allocation table), `INFEASIBLE`
(whose `message` key is absent in `_solve_mckp_with_min_spend`, hence
optional), and `ERROR`.  The `components_with_details` key, a
presentation-only re-listing of the same selection, is not modelled. -/
inductive BuildResult where
  | optimal (goal goalRu : String) (selection : List (String × Scored))
      (totalPrice totalUtility remainingBudget : ℚ)
      (alloc : List (String × ℚ))
  | infeasible (message : Option String)
  | error (message : String)
  deriving Repr, DecidableEq

/-- True exactly on the `OPTIMAL` shape. -/
def BuildResult.isOpt : BuildResult → Bool
  | .optimal _ _ _ _ _ _ _ => true
  | _ => false

/-- True exactly on the `INFEASIBLE` shape. -/
def BuildResult.isInf : BuildResult → Bool
  | .infeasible _ => true
  | _ => false

/-- The `selected_components` mapping of an `OPTIMAL` result
(empty for the other shapes). -/
def BuildResult.optSelection : BuildResult → List (String × Scored)
  | .optimal _ _ sp _ _ _ _ => sp
  | _ => []

/-- A solver selection: one candidate index per category, in the order
of the category list.  `validSel` is the structural part of the MILP's
"exactly one per category" constraint (lines 627-631): every category
present gets exactly one in-range index. -/
def validSel (cats : List (String × List Scored)) (sel : List ℕ) : Bool :=
  sel.length == cats.length &&
    (cats.zip sel).all (fun p => p.2 < p.1.2.length)

/-- Price of the candidate a selection picks in one category (0 for an
out-of-range index; never hit under `validSel`). -/
def pickPrice (items : List Scored) (i : ℕ) : ℚ :=
  ((items[i]?).map (fun s => s.comp.price.getD 0)).getD 0

/-- Utility of the candidate a selection picks in one category. -/
def pickUtility (items : List Scored) (i : ℕ) : ℚ :=
  ((items[i]?).map (fun s => s.utility)).getD 0

/-- Total price of a selection: the `sum of price × decision`. -/
def selTotalPrice (cats : List (String × List Scored)) (sel : List ℕ) : ℚ :=
  ((cats.zip sel).map (fun p => pickPrice p.1.2 p.2)).sum

/-- Total utility of a selection: the solver's objective value. -/
def selTotalUtility (cats : List (String × List Scored)) (sel : List ℕ) : ℚ :=
  ((cats.zip sel).map (fun p => pickUtility p.1.2 p.2)).sum

/-- The selected component per category, as the solution dict is
collected (lines 656-663). -/
def selectedParts (cats : List (String × List Scored)) (sel : List ℕ) :
    List (String × Scored) :=
  (cats.zip sel).filterMap (fun p => (p.1.2[p.2]?).map (fun s => (p.1.1, s)))

/-- The full constraint system the code hands the solver: exactly one
candidate per category, total price ≤ `hi` (line 613), and — when a
floor is installed (lines 620-625 / 730) — total price ≥ `lo`. -/
def feasibleSel (cats : List (String × List Scored)) (lo : Option ℚ)
    (hi : ℚ) (sel : List ℕ) : Bool :=
  validSel cats sel && decide (selTotalPrice cats sel ≤ hi) &&
    (match lo with
     | none => true
     | some l => decide (l ≤ selTotalPrice cats sel))

/-- The external ILP backend, as the narrow interface the engine uses:
given the candidate lists, an optional minimum-spend floor and the
budget ceiling, return a selection (`OPTIMAL`) or `none`
(`INFEASIBLE`). -/
def Oracle : Type :=
  List (String × List Scored) → Option ℚ → ℚ → Option (List ℕ)

/-- The contract the engine relies on: any selection the backend
returns satisfies the constraint system it was given. -/
def OracleSound (f : Oracle) : Prop :=
  ∀ cats lo hi sel, f cats lo hi = some sel → feasibleSel cats lo hi sel = true

/-- `GOAL_TRANSLATIONS.get(goal, goal)`. -/
def goalRuOf (goal : String) : String := alistGet GOAL_TRANSLATIONS goal goal

/-- Assembling the `OPTIMAL` result dict (lines 694-704 / 796-806)
from a solver selection. -/
def assembleOptimal (valid : List (String × List Scored)) (budget : ℚ)
    (goal : String) (sel : List ℕ) : BuildResult :=
  .optimal goal (goalRuOf goal) (selectedParts valid sel)
    (selTotalPrice valid sel) (selTotalUtility valid sel)
    (budget - selTotalPrice valid sel) (budgetWeightsFor goal)

/-- `PcAssemblerService._solve_mckp_with_min_spend`: one solve with an
explicit floor; its INFEASIBLE dict carries no message key. -/
def solve_mckp_with_min_spend (f : Oracle)
    (valid : List (String × List Scored)) (budget : ℚ) (goal : String)
    (minSpend : ℚ) : BuildResult :=
  match f valid (some minSpend) budget with
  | some sel => assembleOptimal valid budget goal sel
  | none => .infeasible none

/-- `PcAssemblerService._solve_mckp`: installs the 0.8·budget floor in
the first solve whenever `min_spend > 0` (i.e. budget ≥ 1500); on an
OPTIMAL first solve, if the total is still below 0.8·budget it tries
`_solve_mckp_with_min_spend` and returns that result when OPTIMAL,
otherwise the first solve's result; an INFEASIBLE first solve is
reported directly. -/
def solve_mckp (f : Oracle) (valid : List (String × List Scored))
    (budget : ℚ) (goal : String) : BuildResult :=
  let minBudgetPct : ℚ := if budget ≥ 1500 then 8/10 else 0
  let minSpend := budget * minBudgetPct
  let lo : Option ℚ := if minSpend > 0 then some minSpend else none
  match f valid lo budget with
  | some sel =>
    if budget ≥ 1500 ∧ selTotalPrice valid sel < budget * (8/10) then
      match solve_mckp_with_min_spend f valid budget goal
          (budget * (8/10)) with
      | .optimal a b c d e g h => .optimal a b c d e g h
      | _ => assembleOptimal valid budget goal sel
    else assembleOptimal valid budget goal sel
  | none => .infeasible (some "No feasible solution found with this budget")

/-- `PcAssemblerService.generate_pc_build` after catalog loading (the
async file I/O of `load_components_async` is outside this model): the
filter/score pipeline, the empty-catalog check, the mandatory-category
check, then the solve. -/
def generate_pc_build (components : List (String × List Component))
    (budget : ℚ) (goal : String) (f : Oracle) : BuildResult :=
  let valid := validComponentsOf components goal budget
  if valid.isEmpty then
    .error "No valid components with price and utility values found"
  else
    let missing := missingCategoriesOf valid
    if missing.isEmpty then solve_mckp f valid budget goal
    else
      .error ("Missing components for categories: " ++
        String.intercalate ", " missing)

/-- All selections assigning one in-range index to every category. -/
def allSels : List (String × List Scored) → List (List ℕ)
  | [] => [[]]
  | p :: rest =>
    (List.range p.2.length).flatMap (fun i => (allSels rest).map (i :: ·))

/-- A concrete exact backend: enumerate every selection, keep the
feasible ones, return one maximizing total utility. -/
def bruteSolve : Oracle := fun cats lo hi =>
  ((allSels cats).filter (feasibleSel cats lo hi)).foldl
    (fun best s =>
      match best with
      | none => some s
      | some b =>
        if selTotalUtility cats s > selTotalUtility cats b then some s
        else some b)
    none

/-- Replace the two goal label fields of an `OPTIMAL` result, leaving
every other field and the other result shapes unchanged. -/
def setGoalLabels (g gru : String) : BuildResult → BuildResult
  | .optimal _ _ sp tp tu rb al => .optimal g gru sp tp tu rb al
  | r => r

/-- A minimal catalog part: a name and a price, no other keys. -/
def mkPart (nm : String) (p : ℚ) : Component :=
  { name := nm, price := some p }

/-- A motherboard whose `form_factor` is the dataset's literal
`"Micro ATX"`. -/
def microAtxBoard : Component :=
  { name := "board", price := some 100, form_factor := some "Micro ATX" }

/-- A storage device whose `type` is the literal `"nvme"`. -/
def nvmeDrive : Component :=
  { name := "drive", price := some 100, capacity := some 1000,
    ctype := some "nvme" }

/-- Solver input for the high-budget scenario: one candidate per
mandatory category, total price 300. -/
def c1valid : List (String × List Scored) :=
  [("cpu", [⟨mkPart "cpu-a" 100, 1⟩]),
   ("memory", [⟨mkPart "mem-a" 80, 1⟩]),
   ("motherboard", [⟨mkPart "mb-a" 60, 1⟩]),
   ("power_supply", [⟨mkPart "psu-a" 40, 1⟩]),
   ("case", [⟨mkPart "case-a" 20, 1⟩])]

/-- Solver input: the five mandatory categories only, total price 60. -/
def c2mand : List (String × List Scored) :=
  [("cpu", [⟨mkPart "cpu-f" 30, 1⟩]),
   ("memory", [⟨mkPart "mem-f" 20, 1⟩]),
   ("motherboard", [⟨mkPart "mb-f" 5, 1⟩]),
   ("power_supply", [⟨mkPart "psu-f" 3, 1⟩]),
   ("case", [⟨mkPart "case-f" 2, 1⟩])]

/-- `c2mand` plus a video card priced above the whole budget of 100. -/
def c2full : List (String × List Scored) :=
  c2mand ++ [("video_card", [⟨mkPart "gpu-f" 120, 1⟩])]

/-- A small complete catalog: one part per mandatory category. -/
def c3comps : List (String × List Component) :=
  [("cpu", [mkPart "cpu-d" 150]), ("memory", [mkPart "mem-c" 50]),
   ("motherboard", [mkPart "mb-c" 40]), ("power_supply", [mkPart "psu-c" 30]),
   ("case", [mkPart "case-c" 20])]

/-- The scored candidates `c3comps` produces at budget 1000, goal
`universal`. -/
def c3valid : List (String × List Scored) :=
  [("cpu", [⟨mkPart "cpu-d" 150, 407/80⟩]),
   ("memory", [⟨mkPart "mem-c" 50, 9/8⟩]),
   ("motherboard", [⟨mkPart "mb-c" 40, 1/2⟩]),
   ("power_supply", [⟨mkPart "psu-c" 30, 66/125⟩]),
   ("case", [⟨mkPart "case-c" 20, 49/200⟩])]

/-- The selection the engine assembles from `c3valid`. -/
def c3selection : List (String × Scored) :=
  [("cpu", ⟨mkPart "cpu-d" 150, 407/80⟩),
   ("memory", ⟨mkPart "mem-c" 50, 9/8⟩),
   ("motherboard", ⟨mkPart "mb-c" 40, 1/2⟩),
   ("power_supply", ⟨mkPart "psu-c" 30, 66/125⟩),
   ("case", ⟨mkPart "case-c" 20, 49/200⟩)]

/-- A catalog with no cpu at all but valid parts in four other
mandatory categories. -/
def c8comps : List (String × List Component) :=
  [("memory", [mkPart "mem-c" 50]), ("motherboard", [mkPart "mb-c" 40]),
   ("power_supply", [mkPart "psu-c" 30]), ("case", [mkPart "case-c" 20])]

/-- The scored candidates `c8comps` produces at budget 1000, goal
`universal`. -/
def c8valid : List (String × List Scored) :=
  [("memory", [⟨mkPart "mem-c" 50, 9/8⟩]),
   ("motherboard", [⟨mkPart "mb-c" 40, 1/2⟩]),
   ("power_supply", [⟨mkPart "psu-c" 30, 66/125⟩]),
   ("case", [⟨mkPart "case-c" 20, 49/200⟩])]

/-- Solver input with one cpu at 1700, used at budget 2000. -/
def c10valid : List (String × List Scored) :=
  [("cpu", [⟨mkPart "cpu-b" 1700, 1⟩])]

/-- A one-category catalog for exercising the candidate filter. -/
def c9comps : List (String × List Component) :=
  [("memory", [mkPart "mem-w" 50])]

/-! ### Helper lemmas -/

theorem insertStable_perm {α : Type} (le : α → α → Bool) (x : α)
    (l : List α) : (insertStable le x l).Perm (x :: l) := by
  induction l with
  | nil => simp [insertStable]
  | cons y ys ih =>
    simp only [insertStable]
    by_cases h : le x y = true
    · simp [h]
    · simp only [h]
      exact ((ih.cons y).trans (List.Perm.swap x y ys)).symm.symm

theorem sortStable_perm {α : Type} (le : α → α → Bool) (l : List α) :
    (sortStable le l).Perm l := by
  induction l with
  | nil => simp [sortStable]
  | cons x xs ih =>
    exact (insertStable_perm le x (sortStable le xs)).trans (ih.cons x)

theorem mem_of_mem_sortStable {α : Type} {le : α → α → Bool} {x : α}
    {l : List α} (h : x ∈ sortStable le l) : x ∈ l :=
  (sortStable_perm le l).mem_iff.mp h

theorem length_sortStable {α : Type} (le : α → α → Bool) (l : List α) :
    (sortStable le l).length = l.length :=
  (sortStable_perm le l).length_eq

theorem mem_of_mem_sliceStep {α : Type} {k : ℕ} {x : α} :
    ∀ {l : List α}, x ∈ sliceStep k l → x ∈ l := by
  intro l
  induction l using sliceStep.induct (k := k) with
  | case1 => simp [sliceStep]
  | case2 y ys ih =>
    intro h
    rw [sliceStep] at h
    rcases List.mem_cons.mp h with h | h
    · simp [h]
    · exact List.mem_cons_of_mem y (List.mem_of_mem_drop (ih h))

theorem mem_filterCategory {items : List Component} {categoryBudget budget : ℚ}
    {c : Component} (h : c ∈ filterCategory items categoryBudget budget) :
    ∃ p : ℚ, c.price = some p ∧ 0 < p ∧
      p ≤ (if budget ≥ 2000 then categoryBudget * 3
           else if budget ≥ 1000 then categoryBudget * (25/10)
           else categoryBudget * 2) := by
  have base : ∀ {d : Component},
      d ∈ items.filter (fun it =>
        match it.price with
        | none => false
        | some p => decide (0 < p) &&
            decide (p ≤ (if budget ≥ 2000 then categoryBudget * 3
              else if budget ≥ 1000 then categoryBudget * (25/10)
              else categoryBudget * 2))) →
      ∃ p : ℚ, d.price = some p ∧ 0 < p ∧
        p ≤ (if budget ≥ 2000 then categoryBudget * 3
             else if budget ≥ 1000 then categoryBudget * (25/10)
             else categoryBudget * 2) := by
    intro d hd
    have hp := List.of_mem_filter hd
    cases hpr : d.price with
    | none => rw [hpr] at hp; simp at hp
    | some p =>
      rw [hpr] at hp
      simp only [Bool.and_eq_true, decide_eq_true_eq] at hp
      exact ⟨p, rfl, hp.1, hp.2⟩
  rw [filterCategory] at h
  set pred := fun it : Component =>
    match it.price with
    | none => false
    | some p => decide (0 < p) &&
        decide (p ≤ (if budget ≥ 2000 then categoryBudget * 3
          else if budget ≥ 1000 then categoryBudget * (25/10)
          else categoryBudget * 2)) with hpred
  have hmem : c ∈ (if budget ≥ 1500 ∧ ¬ (items.filter pred).isEmpty then
      let sortedDesc := sortStable (fun a b => priceKey b ≤ priceKey a)
        (items.filter pred)
      let highEnd := sortedDesc.take 100
      let remaining := sortedDesc.drop 100
      if ¬ remaining.isEmpty then
        let remSorted := sortStable (fun a b => priceKey a ≤ priceKey b) remaining
        let step := max 1 (remSorted.length / 900)
        highEnd ++ sliceStep step remSorted
      else highEnd
    else items.filter pred) := by
    by_cases hlen : (if budget ≥ 1500 ∧ ¬ (items.filter pred).isEmpty then
        let sortedDesc := sortStable (fun a b => priceKey b ≤ priceKey a)
          (items.filter pred)
        let highEnd := sortedDesc.take 100
        let remaining := sortedDesc.drop 100
        if ¬ remaining.isEmpty then
          let remSorted := sortStable (fun a b => priceKey a ≤ priceKey b) remaining
          let step := max 1 (remSorted.length / 900)
          highEnd ++ sliceStep step remSorted
        else highEnd
      else items.filter pred).length > 1000
    · simp only [hpred] at h hlen
      simp only [if_pos hlen] at h
      exact mem_of_mem_sortStable (List.mem_of_mem_take h)
    · simp only [hpred] at h hlen
      simp only [if_neg hlen] at h
      exact h
  by_cases hb : budget ≥ 1500 ∧ ¬ (items.filter pred).isEmpty
  · simp only [if_pos hb] at hmem
    by_cases hr : ¬ ((sortStable (fun a b => priceKey b ≤ priceKey a)
        (items.filter pred)).drop 100).isEmpty
    · simp only [if_pos hr] at hmem
      rcases List.mem_append.mp hmem with hm | hm
      · exact base (mem_of_mem_sortStable (List.mem_of_mem_take hm))
      · have := mem_of_mem_sliceStep hm
        have := mem_of_mem_sortStable this
        exact base (mem_of_mem_sortStable (List.mem_of_mem_drop this))
    · simp only [if_neg hr] at hmem
      exact base (mem_of_mem_sortStable (List.mem_of_mem_take hmem))
  · simp only [if_neg hb] at hmem
    exact base hmem

theorem length_filterCategory (items : List Component)
    (categoryBudget budget : ℚ) :
    (filterCategory items categoryBudget budget).length ≤ 1000 := by
  rw [filterCategory]
  set l := (if budget ≥ 1500 ∧ ¬ (items.filter _).isEmpty then _ else _) with hl
  by_cases h : l.length > 1000
  · simp only [if_pos h]
    exact le_trans (List.length_take_le 1000 _) (le_refl 1000)
  · simp only [if_neg h]
    omega

theorem foldl_best_mem {cats : List (String × List Scored)}
    {s : List ℕ} :
    ∀ {l : List (List ℕ)} {acc : Option (List ℕ)},
      l.foldl (fun best t =>
        match best with
        | none => some t
        | some b =>
          if selTotalUtility cats t > selTotalUtility cats b then some t
          else some b) acc = some s →
      s ∈ l ∨ acc = some s := by
  intro l
  induction l with
  | nil => intro acc h; exact Or.inr h
  | cons t ts ih =>
    intro acc h
    rcases ih h with hm | hacc
    · exact Or.inl (List.mem_cons_of_mem t hm)
    · cases acc with
      | none =>
        simp only [Option.some.injEq] at hacc
        exact Or.inl (hacc ▸ List.mem_cons_self t ts)
      | some b =>
        by_cases hc : selTotalUtility cats t > selTotalUtility cats b
        · simp only [hc, if_pos] at hacc
          simp only [Option.some.injEq] at hacc
          exact Or.inl (hacc ▸ List.mem_cons_self t ts)
        · simp only [if_neg hc, Option.some.injEq] at hacc
          exact Or.inr (congrArg some hacc)

theorem bruteSolve_sound : OracleSound bruteSolve := by
  intro cats lo hi sel h
  rw [bruteSolve] at h
  rcases foldl_best_mem h with hm | hacc
  · exact List.of_mem_filter hm
  · cases hacc

theorem selectedParts_keys :
    ∀ {cats : List (String × List Scored)} {sel : List ℕ},
      validSel cats sel = true →
      (selectedParts cats sel).map Prod.fst = cats.map Prod.fst := by
  intro cats
  induction cats with
  | nil =>
    intro sel _
    simp [selectedParts]
  | cons c cs ih =>
    intro sel hv
    cases sel with
    | nil =>
      exfalso
      simp [validSel] at hv
    | cons i is =>
      simp only [validSel, List.zip_cons_cons, List.all_cons, Bool.and_eq_true,
        decide_eq_true_eq, List.length_cons, beq_iff_eq, Nat.succ.injEq] at hv
      obtain ⟨hlen, hi, hrest⟩ := hv
      have hv' : validSel cs is = true := by
        simp only [validSel, Bool.and_eq_true, beq_iff_eq]
        exact ⟨hlen, hrest⟩
      simp only [selectedParts, List.zip_cons_cons, List.filterMap_cons]
      rw [show c.2[i]? = some (c.2.get ⟨i, hi⟩) from List.getElem?_eq_getElem hi]
      have := ih hv'
      simp only [selectedParts] at this
      simp [this]

theorem selTotalPrice_eq_selected_sum :
    ∀ {cats : List (String × List Scored)} {sel : List ℕ},
      validSel cats sel = true →
      selTotalPrice cats sel =
        ((selectedParts cats sel).map
          (fun p => p.2.comp.price.getD 0)).sum := by
  intro cats
  induction cats with
  | nil =>
    intro sel _
    simp [selTotalPrice, selectedParts]
  | cons c cs ih =>
    intro sel hv
    cases sel with
    | nil =>
      exfalso
      simp [validSel] at hv
    | cons i is =>
      simp only [validSel, List.zip_cons_cons, List.all_cons, Bool.and_eq_true,
        decide_eq_true_eq, List.length_cons, beq_iff_eq, Nat.succ.injEq] at hv
      obtain ⟨hlen, hi, hrest⟩ := hv
      have hv' : validSel cs is = true := by
        simp only [validSel, Bool.and_eq_true, beq_iff_eq]
        exact ⟨hlen, hrest⟩
      have := ih hv'
      simp only [selTotalPrice, selectedParts, pickPrice] at this ⊢
      simp only [List.zip_cons_cons, List.map_cons, List.filterMap_cons,
        List.sum_cons]
      rw [show c.2[i]? = some (c.2.get ⟨i, hi⟩) from List.getElem?_eq_getElem hi]
      simp [this]

theorem feasibleSel_spec {cats : List (String × List Scored)}
    {lo : Option ℚ} {hi : ℚ} {sel : List ℕ}
    (h : feasibleSel cats lo hi sel = true) :
    validSel cats sel = true ∧ selTotalPrice cats sel ≤ hi ∧
      ∀ l : ℚ, lo = some l → l ≤ selTotalPrice cats sel := by
  simp only [feasibleSel, Bool.and_eq_true, decide_eq_true_eq] at h
  obtain ⟨⟨hv, hhi⟩, hlo⟩ := h
  refine ⟨hv, hhi, ?_⟩
  intro l hl
  rw [hl] at hlo
  simpa using hlo

theorem keys_filter_components_sublist
    (comps : List (String × List Component)) (goal : String) (budget : ℚ) :
    ((filter_components_by_goal comps goal budget).map Prod.fst).Sublist
      (comps.map Prod.fst) := by
  induction comps with
  | nil => simp [filter_components_by_goal]
  | cons p ps ih =>
    simp only [filter_components_by_goal, List.filterMap_cons] at *
    by_cases h : (filterCategory p.2 (budgetWeightOf goal p.1 * budget)
        budget).isEmpty
    · simp only [h, if_pos]
      exact ih.trans ((List.map Prod.fst ps).sublist_cons_self p.1)
    · simp only [h]
      simpa using ih.cons₂ p.1

theorem keys_valid_sublist (comps : List (String × List Component))
    (goal : String) (budget : ℚ) :
    ((validComponentsOf comps goal budget).map Prod.fst).Sublist
      (comps.map Prod.fst) := by
  have h2 : ((validComponentsOf comps goal budget).map Prod.fst).Sublist
      ((filter_components_by_goal comps goal budget).map Prod.fst) := by
    rw [validComponentsOf]
    generalize filter_components_by_goal comps goal budget = l
    induction l with
    | nil => simp
    | cons p ps ih =>
      simp only [List.filterMap_cons]
      by_cases h : (scoreItems p.2 p.1 goal budget).isEmpty
      · simp only [h, if_pos]
        exact ih.trans ((List.map Prod.fst ps).sublist_cons_self p.1)
      · simp only [h]
        simpa using ih.cons₂ p.1
  exact h2.trans (keys_filter_components_sublist comps goal budget)

theorem solve_mckp_optimal_inv {f : Oracle} (hf : OracleSound f)
    {valid : List (String × List Scored)} {budget : ℚ}
    {goal g gr : String} {sp : List (String × Scored)} {tp tu rb : ℚ}
    {al : List (String × ℚ)}
    (h : solve_mckp f valid budget goal = .optimal g gr sp tp tu rb al) :
    ∃ sel : List ℕ, validSel valid sel = true ∧
      selTotalPrice valid sel ≤ budget ∧
      sp = selectedParts valid sel ∧ tp = selTotalPrice valid sel ∧
      rb = budget - tp := by
  rw [solve_mckp] at h
  rcases hfe : f valid
      (if budget * (if budget ≥ 1500 then (8 : ℚ)/10 else 0) > 0 then
        some (budget * (if budget ≥ 1500 then (8 : ℚ)/10 else 0))
      else none) budget with _ | sel
  · rw [hfe] at h
    cases h
  · rw [hfe] at h
    dsimp only at h
    have hs := feasibleSel_spec (hf _ _ _ _ hfe)
    by_cases hg : budget ≥ 1500 ∧ selTotalPrice valid sel < budget * (8/10)
    · rw [if_pos hg] at h
      rw [solve_mckp_with_min_spend] at h
      rcases hfe2 : f valid (some (budget * (8/10))) budget with _ | sel2
      · rw [hfe2] at h
        dsimp only at h
        simp only [assembleOptimal, BuildResult.optimal.injEq] at h
        obtain ⟨_, _, hsp, htp, _, hrb, _⟩ := h
        exact ⟨sel, hs.1, hs.2.1, hsp.symm, htp.symm, by rw [← hrb, htp]⟩
      · rw [hfe2] at h
        dsimp only at h
        have hs2 := feasibleSel_spec (hf _ _ _ _ hfe2)
        simp only [assembleOptimal, BuildResult.optimal.injEq] at h
        obtain ⟨_, _, hsp, htp, _, hrb, _⟩ := h
        exact ⟨sel2, hs2.1, hs2.2.1, hsp.symm, htp.symm, by rw [← hrb, htp]⟩
    · rw [if_neg hg] at h
      simp only [assembleOptimal, BuildResult.optimal.injEq] at h
      obtain ⟨_, _, hsp, htp, _, hrb, _⟩ := h
      exact ⟨sel, hs.1, hs.2.1, hsp.symm, htp.symm, by rw [← hrb, htp]⟩

theorem solve_mckp_low_opt (f : Oracle)
    (valid : List (String × List Scored)) (budget : ℚ) (goal : String)
    (sel : List ℕ) (hb : budget < 1500) (h : f valid none budget = some sel) :
    solve_mckp f valid budget goal = assembleOptimal valid budget goal sel := by
  rw [solve_mckp]
  have h1 : ((if budget ≥ 1500 then (8 : ℚ)/10 else 0)) = 0 :=
    if_neg (by linarith)
  rw [h1]
  have h2 : ¬ (budget * (0 : ℚ) > 0) := by norm_num
  rw [if_neg h2, h]
  dsimp only
  rw [if_neg (by push_neg; intro hc; linarith)]

theorem solve_mckp_low_inf (f : Oracle)
    (valid : List (String × List Scored)) (budget : ℚ) (goal : String)
    (hb : budget < 1500) (h : f valid none budget = none) :
    solve_mckp f valid budget goal =
      .infeasible (some "No feasible solution found with this budget") := by
  rw [solve_mckp]
  have h1 : ((if budget ≥ 1500 then (8 : ℚ)/10 else 0)) = 0 :=
    if_neg (by linarith)
  rw [h1]
  have h2 : ¬ (budget * (0 : ℚ) > 0) := by norm_num
  rw [if_neg h2, h]

theorem mem_keys_of_missing_empty
    {valid : List (String × List Scored)} {cat : String}
    (h2 : (missingCategoriesOf valid).isEmpty = true)
    (hcat : cat ∈ requiredCategories) : cat ∈ valid.map Prod.fst := by
  rw [missingCategoriesOf, List.isEmpty_iff, List.filter_eq_nil_iff] at h2
  have := h2 cat hcat
  simp only [decide_eq_true_eq, Decidable.not_not] at this
  obtain ⟨p, hp, hpe⟩ := List.any_eq_true.mp this
  simp only [beq_iff_eq] at hpe
  exact hpe ▸ List.mem_map_of_mem Prod.fst hp

/-! ### Claim theorems -/

/-- C4: evaluating `_calculate_base_utility` at the failing input.  A
motherboard whose form factor is `"Micro ATX"` scores `70`, not the
`65` the spec's table (`Micro-ATX: +15`) prescribes: the `'ATX' in
form_factor` substring test matches `"Micro ATX"` first, so the
`+15` branch is dead code.  An `"nvme"` storage device does get the
`+30` bonus as claimed (`50 + 1000/100 + 30 = 90`). -/
theorem c4_micro_atx_scores_70 :
    calculate_base_utility microAtxBoard "motherboard" = some 70 ∧
      calculate_base_utility nvmeDrive "storage" = some 90 := by
  constructor
  · norm_num [calculate_base_utility, microAtxBoard,
      show strHasSub "Micro ATX" "ATX" = true from by decide]
    simp
  · norm_num [calculate_base_utility, nvmeDrive,
      show strHasSub (strLower "nvme") "ssd" = false from by decide,
      show strHasSub (strLower "nvme") "nvme" = true from by decide]
    simp

/-- C5 counterexample: in the low tier (budget 500 < 1000), a part
whose price/target ratio is 200/125 = 1.6 > 1.2 receives price factor
0.5, not the 0.7 the claim states. -/
theorem c5_low_tier_counterexample :
    (200 : ℚ) / 125 > 12/10 ∧ priceFactor 200 125 500 = 5/10 ∧
      priceFactor 200 125 500 ≠ 7/10 := by
  refine ⟨by norm_num, by norm_num [priceFactor], ?_⟩
  norm_num [priceFactor]

/-- C5 (amended): the low tier of the price factor maps ratio > 1.2 to
0.5 (not 0.7), ratio in (1,1.2] to 0.7, [0.8,1] to 1, [0.5,0.8) to
0.9 and ratio < 0.5 to 0.8; across all three tiers every price factor
lies in [0.5, 1.2]. -/
theorem c5_price_factor_steps :
    (∀ price target budget : ℚ,
      1/2 ≤ priceFactor price target budget ∧
        priceFactor price target budget ≤ 12/10) ∧
    (∀ price target budget : ℚ, 0 < target → budget < 1000 →
      (price / target > 12/10 → priceFactor price target budget = 5/10) ∧
      (1 < price / target ∧ price / target ≤ 12/10 →
        priceFactor price target budget = 7/10) ∧
      (8/10 ≤ price / target ∧ price / target ≤ 1 →
        priceFactor price target budget = 1) ∧
      (1/2 ≤ price / target ∧ price / target < 8/10 →
        priceFactor price target budget = 9/10) ∧
      (price / target < 1/2 → priceFactor price target budget = 8/10)) := by
  constructor
  · intro price target budget
    rw [priceFactor]
    split_ifs <;> norm_num
  · intro price target budget ht hb
    have h2000 : ¬ budget ≥ 2000 := by linarith
    have h1000 : ¬ budget ≥ 1000 := by linarith
    rw [priceFactor, if_neg h2000, if_neg h1000]
    refine ⟨?_, ?_, ?_, ?_, ?_⟩
    · intro hr
      rw [gt_iff_lt, lt_div_iff₀ ht] at hr
      rw [if_pos (by linarith)]
    · rintro ⟨hr1, hr2⟩
      rw [lt_div_iff₀ ht] at hr1
      rw [div_le_iff₀ ht] at hr2
      rw [if_neg (by linarith), if_pos (by linarith)]
    · rintro ⟨hr1, hr2⟩
      rw [le_div_iff₀ ht] at hr1
      rw [div_le_iff₀ ht] at hr2
      rw [if_neg (by linarith), if_neg (by linarith),
        if_pos (by linarith)]
    · rintro ⟨hr1, hr2⟩
      rw [le_div_iff₀ ht] at hr1
      rw [div_lt_iff₀ ht] at hr2
      rw [if_neg (by linarith), if_neg (by linarith),
        if_neg (by linarith), if_pos (by linarith)]
    · intro hr
      rw [div_lt_iff₀ ht] at hr
      rw [if_neg (by linarith), if_neg (by linarith),
        if_neg (by linarith), if_neg (by linarith)]

/-- Witness for C5 (amended): the low-tier step function evaluated at
ratio 1.6 yields 0.5, and the factor is within [0.5, 1.2]. -/
theorem c5_price_factor_steps_witness :
    priceFactor 200 125 500 = 5/10 ∧
      (1/2 ≤ priceFactor 200 125 500 ∧ priceFactor 200 125 500 ≤ 12/10) :=
  ⟨(c5_price_factor_steps.2 200 125 500 (by norm_num) (by norm_num)).1
      (by norm_num),
    c5_price_factor_steps.1 200 125 500⟩

/-- C6: whenever the base utility is defined, the final utility is
`base · w² · price_factor + price_bonus`, where `w` is the goal's
importance weight for the category (defaulting to 0.1 when the
category is absent from the profile) and the bonus is
`min(price/100, target/50)` exactly when budget ≥ 1500. -/
theorem c6_final_utility_formula (c : Component) (category goal : String)
    (budget baseU : ℚ)
    (h : calculate_base_utility c category = some baseU) :
    calculate_utility c category goal budget =
      some (baseU * (importanceOf goal category) ^ 2 *
          priceFactor (c.price.getD 0)
            (budgetWeightOf goal category * budget) budget +
        (if budget ≥ 1500 then
          min ((c.price.getD 0) / 100)
            ((budgetWeightOf goal category * budget) / 50)
        else 0)) ∧
    (category ∉ (goalWeightsFor goal).map Prod.fst →
      importanceOf goal category = 1/10) := by
  constructor
  · rw [calculate_utility, h]
  · intro hnm
    rw [importanceOf, alistGet]
    have : (goalWeightsFor goal).find? (fun p => p.1 == category) = none := by
      rw [List.find?_eq_none]
      intro p hp
      simp only [beq_iff_eq]
      intro hc
      exact hnm (hc ▸ List.mem_map_of_mem Prod.fst hp)
    rw [this]

/-- Witness for C6: the formula instantiated on a concrete cpu at
goal `games`, budget 2000. -/
theorem c6_final_utility_formula_witness :
    calculate_utility (mkPart "cpu-e" 500) "cpu" "games" 2000 =
      some ((74 : ℚ) * (importanceOf "games" "cpu") ^ 2 *
          priceFactor ((mkPart "cpu-e" 500).price.getD 0)
            (budgetWeightOf "games" "cpu" * 2000) 2000 +
        (if (2000 : ℚ) ≥ 1500 then
          min (((mkPart "cpu-e" 500).price.getD 0) / 100)
            ((budgetWeightOf "games" "cpu" * 2000) / 50)
        else 0)) :=
  (c6_final_utility_formula (mkPart "cpu-e" 500) "cpu" "games" 2000 74
    (by norm_num [calculate_base_utility, mkPart])).1

/-- C1 (amended): for budget ≥ 1500 `_solve_mckp` installs the
0.8·budget floor in its one and only solve; when that floored problem
is infeasible it reports INFEASIBLE to the caller directly — there is
no retry without the floor, whatever the backend would say about the
plain-ceiling problem. -/
theorem c1_no_retry_on_infeasible (f : Oracle)
    (valid : List (String × List Scored)) (budget : ℚ) (goal : String)
    (hb : (1500 : ℚ) ≤ budget)
    (hinf : f valid (some (budget * (8/10))) budget = none) :
    solve_mckp f valid budget goal =
      .infeasible (some "No feasible solution found with this budget") := by
  rw [solve_mckp]
  have h1 : ((if budget ≥ 1500 then (8 : ℚ)/10 else 0)) = 8/10 :=
    if_pos hb
  rw [h1]
  have h2 : budget * ((8 : ℚ)/10) > 0 := by linarith
  rw [if_pos h2, hinf]

/-- Witness for C1 (amended): a backend that reports the floored
problem infeasible makes the engine report INFEASIBLE at once. -/
theorem c1_no_retry_on_infeasible_witness :
    solve_mckp (fun _ _ _ => none) c1valid 1500 "universal" =
      .infeasible (some "No feasible solution found with this budget") :=
  c1_no_retry_on_infeasible (fun _ _ _ => none) c1valid 1500 "universal"
    (by norm_num) rfl

/-- C10: for budget ≥ 1500 the first solve already carries the
`total ≥ 0.8·budget` floor, so any OPTIMAL first solve already spends
at least 80% of the budget; the in-function retry guard
`total_price < 0.8·budget` is therefore false and `_solve_mckp`
returns exactly the first solve's assembled result. -/
theorem c10_retry_branch_unreachable (f : Oracle) (hf : OracleSound f)
    (valid : List (String × List Scored)) (budget : ℚ) (goal : String)
    (sel : List ℕ) (hb : (1500 : ℚ) ≤ budget)
    (h1 : f valid (some (budget * (8/10))) budget = some sel) :
    budget * (8/10) ≤ selTotalPrice valid sel ∧
      solve_mckp f valid budget goal =
        assembleOptimal valid budget goal sel := by
  have hs := feasibleSel_spec (hf _ _ _ _ h1)
  have hfloor : budget * (8/10) ≤ selTotalPrice valid sel :=
    hs.2.2 _ rfl
  refine ⟨hfloor, ?_⟩
  rw [solve_mckp]
  have he : ((if budget ≥ 1500 then (8 : ℚ)/10 else 0)) = 8/10 :=
    if_pos hb
  rw [he]
  have h2 : budget * ((8 : ℚ)/10) > 0 := by linarith
  rw [if_pos h2, h1]
  dsimp only
  rw [if_neg (by push_neg; intro _; linarith)]

/-- Witness for C10: at budget 2000 with a 1700-priced cpu, the brute
backend returns the floored solve's selection and the engine's result
is that first solve's assembly. -/
theorem c10_retry_branch_unreachable_witness :
    (2000 : ℚ) * (8/10) ≤ selTotalPrice c10valid [0] ∧
      solve_mckp bruteSolve c10valid 2000 "universal" =
        assembleOptimal c10valid 2000 "universal" [0] :=
  c10_retry_branch_unreachable bruteSolve bruteSolve_sound c10valid 2000
    "universal" [0] (by norm_num)
    (by norm_num [bruteSolve, c10valid, allSels, feasibleSel, validSel,
      selTotalPrice, selTotalUtility, pickPrice, pickUtility, mkPart,
      List.range, List.range.loop])

/-- Evaluation helper: the brute backend on the mandatory-only input
at budget 100 returns the unique selection. -/
theorem c2mand_brute :
    bruteSolve c2mand none 100 = some [0, 0, 0, 0, 0] := by
  norm_num [bruteSolve, c2mand, allSels, feasibleSel, validSel,
    selTotalPrice, selTotalUtility, pickPrice, pickUtility, mkPart,
    List.range, List.range.loop]

/-- C2 counterexample: with the five mandatory parts totalling 60 the
engine is feasible at budget 100, but adding a video card candidate
priced 120 — above the whole budget, so "unaffordable" — makes the
engine INFEASIBLE, because the category constraint is exactly-one,
not at-most-one, for every category present in the input. -/
theorem c2_optional_category_counterexample :
    selTotalPrice c2mand [0, 0, 0, 0, 0] = 60 ∧
      (solve_mckp bruteSolve c2mand 100 "universal").isOpt = true ∧
      solve_mckp bruteSolve c2full 100 "universal" =
        .infeasible (some "No feasible solution found with this budget") := by
  refine ⟨?_, ?_, ?_⟩
  · norm_num [selTotalPrice, pickPrice, c2mand, mkPart]
  · rw [solve_mckp_low_opt bruteSolve c2mand 100 "universal" [0, 0, 0, 0, 0]
      (by norm_num) c2mand_brute]
    rfl
  · refine solve_mckp_low_inf bruteSolve c2full 100 "universal"
      (by norm_num) ?_
    norm_num [bruteSolve, c2full, c2mand, allSels, feasibleSel, validSel,
      selTotalPrice, selTotalUtility, pickPrice, pickUtility, mkPart,
      List.range, List.range.loop]

/-- C2 (amended): every category present in the solver input — the
optional `video_card` and `storage` included — is constrained to
exactly one selection: an OPTIMAL result selects one part per input
category, in input order.  Optional categories can only be excluded
upstream, when filtering/scoring leaves their candidate list empty. -/
theorem c2_exactly_one_per_present_category (f : Oracle)
    (hf : OracleSound f) (valid : List (String × List Scored))
    (budget : ℚ) (goal g gr : String) (sp : List (String × Scored))
    (tp tu rb : ℚ) (al : List (String × ℚ))
    (h : solve_mckp f valid budget goal = .optimal g gr sp tp tu rb al) :
    sp.map Prod.fst = valid.map Prod.fst := by
  obtain ⟨sel, hv, _, hsp, _, _⟩ := solve_mckp_optimal_inv hf h
  rw [hsp]
  exact selectedParts_keys hv

/-- Witness for C2 (amended): on the six-category input with a video
card, an OPTIMAL run would select one part for every category
including `video_card`; exercised at budget 300 where a full bundle
(total 180) fits. -/
theorem c2_exactly_one_witness :
    ((solve_mckp bruteSolve c2full 300 "universal").optSelection.map
        Prod.fst) = c2full.map Prod.fst := by
  have hrun : solve_mckp bruteSolve c2full 300 "universal" =
      assembleOptimal c2full 300 "universal" [0, 0, 0, 0, 0, 0] := by
    refine solve_mckp_low_opt bruteSolve c2full 300 "universal"
      [0, 0, 0, 0, 0, 0] (by norm_num) ?_
    norm_num [bruteSolve, c2full, c2mand, allSels, feasibleSel, validSel,
      selTotalPrice, selTotalUtility, pickPrice, pickUtility, mkPart,
      List.range, List.range.loop]
  have := c2_exactly_one_per_present_category bruteSolve bruteSolve_sound
    c2full 300 "universal" "universal" (goalRuOf "universal")
    (selectedParts c2full [0, 0, 0, 0, 0, 0])
    (selTotalPrice c2full [0, 0, 0, 0, 0, 0])
    (selTotalUtility c2full [0, 0, 0, 0, 0, 0])
    (300 - selTotalPrice c2full [0, 0, 0, 0, 0, 0])
    (budgetWeightsFor "universal") (by rw [hrun]; rfl)
  rw [hrun]
  exact this

/-- C3: every OPTIMAL result of the engine entry point respects the
budget ceiling, reports `remaining_budget = budget - total_price`,
and selects exactly one part for each mandatory category. -/
theorem c3_optimal_invariants (f : Oracle) (hf : OracleSound f)
    (components : List (String × List Component)) (budget : ℚ)
    (goal g gr : String) (sp : List (String × Scored)) (tp tu rb : ℚ)
    (al : List (String × ℚ))
    (hnd : (components.map Prod.fst).Nodup)
    (h : generate_pc_build components budget goal f =
      .optimal g gr sp tp tu rb al) :
    tp ≤ budget ∧ rb = budget - tp ∧
      ∀ cat ∈ requiredCategories,
        List.count cat (sp.map Prod.fst) = 1 := by
  rw [generate_pc_build] at h
  by_cases h1 : (validComponentsOf components goal budget).isEmpty
  · rw [if_pos h1] at h
    cases h
  · rw [if_neg h1] at h
    by_cases h2 :
        (missingCategoriesOf (validComponentsOf components goal budget)).isEmpty
    · rw [if_pos h2] at h
      obtain ⟨sel, hv, hle, hsp, htp, hrb⟩ := solve_mckp_optimal_inv hf h
      refine ⟨htp ▸ hle, hrb, ?_⟩
      intro cat hcat
      have hkeys : sp.map Prod.fst =
          (validComponentsOf components goal budget).map Prod.fst := by
        rw [hsp]
        exact selectedParts_keys hv
      have hnd' :
          ((validComponentsOf components goal budget).map Prod.fst).Nodup :=
        (keys_valid_sublist components goal budget).nodup hnd
      have hmem := mem_keys_of_missing_empty h2 hcat
      rw [hkeys]
      exact List.count_eq_one_of_mem hnd' hmem
    · rw [if_neg h2] at h
      cases h

/-- C1 counterexample: at budget 1500 the mandatory-only input with
total price 300 satisfies the plain budget ceiling (selection
`[0,0,0,0,0]` is feasible without any floor), yet the engine reports
INFEASIBLE: its first and only solve carries the `≥ 0.8·budget` floor
and it never retries without it. -/
theorem c1_no_fallback_counterexample :
    feasibleSel c1valid none 1500 [0, 0, 0, 0, 0] = true ∧
      solve_mckp bruteSolve c1valid 1500 "universal" =
        .infeasible (some "No feasible solution found with this budget") := by
  constructor
  · norm_num [feasibleSel, validSel, selTotalPrice, pickPrice, c1valid,
      mkPart]
  · rw [solve_mckp]
    rw [show ((if (1500 : ℚ) ≥ 1500 then (8 : ℚ)/10 else 0)) = 8/10 from
      if_pos (by norm_num)]
    rw [if_pos (show (1500 : ℚ) * (8/10) > 0 by norm_num)]
    rw [show bruteSolve c1valid (some ((1500 : ℚ) * (8/10))) 1500 = none from
      by norm_num [bruteSolve, c1valid, allSels, feasibleSel, validSel,
        selTotalPrice, selTotalUtility, pickPrice, pickUtility, mkPart,
        List.range, List.range.loop]]

/-- C9: the candidate filter only returns parts with a present,
strictly positive price bounded by `budgetWeight · budget · m`
(`m` = 3 for budget ≥ 2000, 2.5 for ≥ 1000, else 2), and every
returned category list has at most 1000 items. -/
theorem c9_filter_bounds (components : List (String × List Component))
    (goal : String) (budget : ℚ) (cat : String) (lst : List Component)
    (h : (cat, lst) ∈ filter_components_by_goal components goal budget) :
    lst.length ≤ 1000 ∧
      ∀ c ∈ lst, ∃ p : ℚ, c.price = some p ∧ 0 < p ∧
        p ≤ budgetWeightOf goal cat * budget *
          (if budget ≥ 2000 then 3
           else if budget ≥ 1000 then 25/10 else 2) := by
  rw [filter_components_by_goal] at h
  obtain ⟨q, hq, hqe⟩ := List.mem_filterMap.mp h
  by_cases he :
      (filterCategory q.2 (budgetWeightOf goal q.1 * budget) budget).isEmpty
  · rw [if_pos he] at hqe
    cases hqe
  · rw [if_neg he] at hqe
    have hcat' : cat = q.1 := by
      cases hqe
      rfl
    have hlst' : lst = filterCategory q.2
        (budgetWeightOf goal q.1 * budget) budget := by
      cases hqe
      rfl
    subst hcat'
    subst hlst'
    refine ⟨length_filterCategory _ _ _, ?_⟩
    intro c hc
    obtain ⟨p, hp, hpos, hle⟩ := mem_filterCategory hc
    refine ⟨p, hp, hpos, ?_⟩
    by_cases h2000 : budget ≥ 2000
    · rw [if_pos h2000] at hle ⊢
      linarith [hle]
    · rw [if_neg h2000] at hle ⊢
      by_cases h1000 : budget ≥ 1000
      · rw [if_pos h1000] at hle ⊢
        linarith [hle]
      · rw [if_neg h1000] at hle ⊢
        linarith [hle]

/-- The `universal` rows of the two weight tables are found by lookup. -/
theorem goalWeightsFor_universal :
    goalWeightsFor "universal" = universalGoalWeights := by
  simp [goalWeightsFor, alistGet, GOAL_ALLOCATIONS, List.find?]

theorem budgetWeightsFor_universal :
    budgetWeightsFor "universal" = universalBudgetWeights := by
  simp [budgetWeightsFor, alistGet, BUDGET_ALLOCATIONS, List.find?]

theorem goalWeightsFor_unknown (g : String) (h1 : g ≠ "games")
    (h2 : g ≠ "office") (h3 : g ≠ "graphics") (h4 : g ≠ "video")
    (h5 : g ≠ "programming") (h6 : g ≠ "universal") :
    goalWeightsFor g = universalGoalWeights := by
  simp [goalWeightsFor, alistGet, GOAL_ALLOCATIONS, List.find?,
    beq_eq_false_iff_ne.mpr (Ne.symm h1), beq_eq_false_iff_ne.mpr (Ne.symm h2),
    beq_eq_false_iff_ne.mpr (Ne.symm h3), beq_eq_false_iff_ne.mpr (Ne.symm h4),
    beq_eq_false_iff_ne.mpr (Ne.symm h5), beq_eq_false_iff_ne.mpr (Ne.symm h6)]

theorem budgetWeightsFor_unknown (g : String) (h1 : g ≠ "games")
    (h2 : g ≠ "office") (h3 : g ≠ "graphics") (h4 : g ≠ "video")
    (h5 : g ≠ "programming") (h6 : g ≠ "universal") :
    budgetWeightsFor g = universalBudgetWeights := by
  simp [budgetWeightsFor, alistGet, BUDGET_ALLOCATIONS, List.find?,
    beq_eq_false_iff_ne.mpr (Ne.symm h1), beq_eq_false_iff_ne.mpr (Ne.symm h2),
    beq_eq_false_iff_ne.mpr (Ne.symm h3), beq_eq_false_iff_ne.mpr (Ne.symm h4),
    beq_eq_false_iff_ne.mpr (Ne.symm h5), beq_eq_false_iff_ne.mpr (Ne.symm h6)]

theorem goalRuOf_unknown (g : String) (h1 : g ≠ "games")
    (h2 : g ≠ "office") (h3 : g ≠ "graphics") (h4 : g ≠ "video")
    (h5 : g ≠ "programming") (h6 : g ≠ "universal") :
    goalRuOf g = g := by
  simp [goalRuOf, alistGet, GOAL_TRANSLATIONS, List.find?,
    beq_eq_false_iff_ne.mpr (Ne.symm h1), beq_eq_false_iff_ne.mpr (Ne.symm h2),
    beq_eq_false_iff_ne.mpr (Ne.symm h3), beq_eq_false_iff_ne.mpr (Ne.symm h4),
    beq_eq_false_iff_ne.mpr (Ne.symm h5), beq_eq_false_iff_ne.mpr (Ne.symm h6)]

theorem importanceOf_unknown (g : String) (h1 : g ≠ "games")
    (h2 : g ≠ "office") (h3 : g ≠ "graphics") (h4 : g ≠ "video")
    (h5 : g ≠ "programming") (h6 : g ≠ "universal") (cat : String) :
    importanceOf g cat = importanceOf "universal" cat := by
  rw [importanceOf, importanceOf, goalWeightsFor_universal,
    goalWeightsFor_unknown g h1 h2 h3 h4 h5 h6]

theorem budgetWeightOf_unknown (g : String) (h1 : g ≠ "games")
    (h2 : g ≠ "office") (h3 : g ≠ "graphics") (h4 : g ≠ "video")
    (h5 : g ≠ "programming") (h6 : g ≠ "universal") (cat : String) :
    budgetWeightOf g cat = budgetWeightOf "universal" cat := by
  rw [budgetWeightOf, budgetWeightOf, budgetWeightsFor_universal,
    budgetWeightsFor_unknown g h1 h2 h3 h4 h5 h6]

theorem calculate_utility_unknown (g : String) (h1 : g ≠ "games")
    (h2 : g ≠ "office") (h3 : g ≠ "graphics") (h4 : g ≠ "video")
    (h5 : g ≠ "programming") (h6 : g ≠ "universal")
    (c : Component) (cat : String) (b : ℚ) :
    calculate_utility c cat g b = calculate_utility c cat "universal" b := by
  simp only [calculate_utility,
    importanceOf_unknown g h1 h2 h3 h4 h5 h6,
    budgetWeightOf_unknown g h1 h2 h3 h4 h5 h6]

theorem validComponentsOf_unknown (g : String) (h1 : g ≠ "games")
    (h2 : g ≠ "office") (h3 : g ≠ "graphics") (h4 : g ≠ "video")
    (h5 : g ≠ "programming") (h6 : g ≠ "universal")
    (comps : List (String × List Component)) (b : ℚ) :
    validComponentsOf comps g b = validComponentsOf comps "universal" b := by
  simp only [validComponentsOf, filter_components_by_goal, scoreItems,
    calculate_utility_unknown g h1 h2 h3 h4 h5 h6,
    budgetWeightOf_unknown g h1 h2 h3 h4 h5 h6]

theorem assembleOptimal_unknown (g : String) (h1 : g ≠ "games")
    (h2 : g ≠ "office") (h3 : g ≠ "graphics") (h4 : g ≠ "video")
    (h5 : g ≠ "programming") (h6 : g ≠ "universal")
    (valid : List (String × List Scored)) (b : ℚ) (sel : List ℕ) :
    assembleOptimal valid b g sel =
      setGoalLabels g g (assembleOptimal valid b "universal" sel) := by
  simp only [assembleOptimal, setGoalLabels,
    goalRuOf_unknown g h1 h2 h3 h4 h5 h6, budgetWeightsFor_universal,
    budgetWeightsFor_unknown g h1 h2 h3 h4 h5 h6]

theorem solve_mckp_unknown (g : String) (h1 : g ≠ "games")
    (h2 : g ≠ "office") (h3 : g ≠ "graphics") (h4 : g ≠ "video")
    (h5 : g ≠ "programming") (h6 : g ≠ "universal")
    (f : Oracle) (valid : List (String × List Scored)) (b : ℚ) :
    solve_mckp f valid b g =
      setGoalLabels g g (solve_mckp f valid b "universal") := by
  rw [solve_mckp, solve_mckp]
  rcases hf1 : f valid
      (if b * (if b ≥ 1500 then (8 : ℚ)/10 else 0) > 0 then
        some (b * (if b ≥ 1500 then (8 : ℚ)/10 else 0))
      else none) b with _ | sel
  · rfl
  · dsimp only
    by_cases hg : b ≥ 1500 ∧ selTotalPrice valid sel < b * (8/10)
    · rw [if_pos hg, if_pos hg]
      rw [solve_mckp_with_min_spend, solve_mckp_with_min_spend]
      rcases hf2 : f valid (some (b * (8/10))) b with _ | sel2
      · dsimp only
        exact assembleOptimal_unknown g h1 h2 h3 h4 h5 h6 valid b sel
      · simp only [assembleOptimal, setGoalLabels,
          goalRuOf_unknown g h1 h2 h3 h4 h5 h6,
          budgetWeightsFor_universal,
          budgetWeightsFor_unknown g h1 h2 h3 h4 h5 h6]
    · rw [if_neg hg, if_neg hg]
      exact assembleOptimal_unknown g h1 h2 h3 h4 h5 h6 valid b sel

/-- C7: for a goal string outside the six known identifiers, the
engine's result is the `universal` run's result with both goal label
fields replaced by the literal unknown goal string: same selected
parts, prices, utilities and allocation table throughout filtering,
scoring and solving. -/
theorem c7_unknown_goal_is_universal (g : String) (h1 : g ≠ "games")
    (h2 : g ≠ "office") (h3 : g ≠ "graphics") (h4 : g ≠ "video")
    (h5 : g ≠ "programming") (h6 : g ≠ "universal")
    (comps : List (String × List Component)) (b : ℚ) (f : Oracle) :
    generate_pc_build comps b g f =
      setGoalLabels g g (generate_pc_build comps b "universal" f) := by
  rw [generate_pc_build, generate_pc_build,
    validComponentsOf_unknown g h1 h2 h3 h4 h5 h6]
  by_cases he : (validComponentsOf comps "universal" b).isEmpty
  · rw [if_pos he, if_pos he]
    rfl
  · rw [if_neg he, if_neg he]
    by_cases hm :
        (missingCategoriesOf (validComponentsOf comps "universal" b)).isEmpty
    · rw [if_pos hm, if_pos hm]
      exact solve_mckp_unknown g h1 h2 h3 h4 h5 h6 f _ b
    · rw [if_neg hm, if_neg hm]
      rfl

/-- Witness for C7: the unknown goal `"unknown_value"` behaves as
`universal` with relabelled output. -/
theorem c7_unknown_goal_witness :
    generate_pc_build c3comps 1000 "unknown_value" bruteSolve =
      setGoalLabels "unknown_value" "unknown_value"
        (generate_pc_build c3comps 1000 "universal" bruteSolve) :=
  c7_unknown_goal_is_universal "unknown_value" (by decide) (by decide)
    (by decide) (by decide) (by decide) (by decide) c3comps 1000 bruteSolve

/-! ### Concrete evaluation helpers (budget 1000, goal `universal`) -/

theorem goalRuOf_universal : goalRuOf "universal" = "Универсальный" := by
  simp [goalRuOf, alistGet, GOAL_TRANSLATIONS, List.find?]

theorem uw_cpu : budgetWeightOf "universal" "cpu" = 1/4 := by
  rw [budgetWeightOf, budgetWeightsFor_universal]
  simp [alistGet, universalBudgetWeights, List.find?]
  norm_num

theorem uw_memory : budgetWeightOf "universal" "memory" = 3/20 := by
  rw [budgetWeightOf, budgetWeightsFor_universal]
  simp [alistGet, universalBudgetWeights, List.find?]
  norm_num

theorem uw_motherboard : budgetWeightOf "universal" "motherboard" = 1/10 := by
  rw [budgetWeightOf, budgetWeightsFor_universal]
  simp [alistGet, universalBudgetWeights, List.find?]
  norm_num

theorem uw_power_supply : budgetWeightOf "universal" "power_supply" = 1/20 := by
  rw [budgetWeightOf, budgetWeightsFor_universal]
  simp [alistGet, universalBudgetWeights, List.find?]
  norm_num

theorem uw_case : budgetWeightOf "universal" "case" = 1/20 := by
  rw [budgetWeightOf, budgetWeightsFor_universal]
  simp [alistGet, universalBudgetWeights, List.find?]
  norm_num

theorem fc_cpu_d : filterCategory [mkPart "cpu-d" 150] (1/4 * 1000) 1000 =
    [mkPart "cpu-d" 150] := by
  norm_num [filterCategory, mkPart, sortStable, insertStable, sliceStep,
    priceKey]

theorem fc_mem_c : filterCategory [mkPart "mem-c" 50] (3/20 * 1000) 1000 =
    [mkPart "mem-c" 50] := by
  norm_num [filterCategory, mkPart, sortStable, insertStable, sliceStep,
    priceKey]

theorem fc_mb_c : filterCategory [mkPart "mb-c" 40] (1/10 * 1000) 1000 =
    [mkPart "mb-c" 40] := by
  norm_num [filterCategory, mkPart, sortStable, insertStable, sliceStep,
    priceKey]

theorem fc_psu_c : filterCategory [mkPart "psu-c" 30] (1/20 * 1000) 1000 =
    [mkPart "psu-c" 30] := by
  norm_num [filterCategory, mkPart, sortStable, insertStable, sliceStep,
    priceKey]

theorem fc_case_c : filterCategory [mkPart "case-c" 20] (1/20 * 1000) 1000 =
    [mkPart "case-c" 20] := by
  norm_num [filterCategory, mkPart, sortStable, insertStable, sliceStep,
    priceKey]

theorem c3_filter : filter_components_by_goal c3comps "universal" 1000 =
    c3comps := by
  simp only [filter_components_by_goal, c3comps, List.filterMap_cons,
    List.filterMap_nil, uw_cpu, uw_memory, uw_motherboard, uw_power_supply,
    uw_case, fc_cpu_d, fc_mem_c, fc_mb_c, fc_psu_c, fc_case_c]
  simp

theorem c8_filter : filter_components_by_goal c8comps "universal" 1000 =
    c8comps := by
  simp only [filter_components_by_goal, c8comps, List.filterMap_cons,
    List.filterMap_nil, uw_memory, uw_motherboard, uw_power_supply,
    uw_case, fc_mem_c, fc_mb_c, fc_psu_c, fc_case_c]
  simp

theorem mkPart_price (nm : String) (p : ℚ) : (mkPart nm p).price = some p :=
  rfl

theorem iw_cpu : importanceOf "universal" "cpu" = 1/4 := by
  rw [importanceOf, goalWeightsFor_universal]
  simp [alistGet, universalGoalWeights, List.find?]
  norm_num

theorem iw_memory : importanceOf "universal" "memory" = 3/20 := by
  rw [importanceOf, goalWeightsFor_universal]
  simp [alistGet, universalGoalWeights, List.find?]
  norm_num

theorem iw_motherboard : importanceOf "universal" "motherboard" = 1/10 := by
  rw [importanceOf, goalWeightsFor_universal]
  simp [alistGet, universalGoalWeights, List.find?]
  norm_num

theorem iw_power_supply : importanceOf "universal" "power_supply" = 2/25 := by
  rw [importanceOf, goalWeightsFor_universal]
  simp [alistGet, universalGoalWeights, List.find?]
  norm_num

theorem iw_case : importanceOf "universal" "case" = 7/100 := by
  rw [importanceOf, goalWeightsFor_universal]
  simp [alistGet, universalGoalWeights, List.find?]

theorem base_cpu_d : calculate_base_utility (mkPart "cpu-d" 150) "cpu" =
    some 74 := by
  norm_num [calculate_base_utility, mkPart]

theorem base_mem_c : calculate_base_utility (mkPart "mem-c" 50) "memory" =
    some 50 := by
  norm_num [calculate_base_utility, mkPart]
  simp

theorem base_mb_c : calculate_base_utility (mkPart "mb-c" 40) "motherboard" =
    some 50 := by
  norm_num [calculate_base_utility, mkPart,
    show strHasSub "" "ATX" = false from by decide,
    show strHasSub "" "Micro ATX" = false from by decide,
    show strHasSub "" "Mini ITX" = false from by decide]
  simp

theorem base_psu_c : calculate_base_utility (mkPart "psu-c" 30)
    "power_supply" = some 75 := by
  norm_num [calculate_base_utility, mkPart,
    show strHasSub (strLower "") "titanium" = false from by decide,
    show strHasSub (strLower "") "platinum" = false from by decide,
    show strHasSub (strLower "") "gold" = false from by decide,
    show strHasSub (strLower "") "silver" = false from by decide,
    show strHasSub (strLower "") "bronze" = false from by decide]
  simp

theorem base_case_c : calculate_base_utility (mkPart "case-c" 20) "case" =
    some 50 := by
  norm_num [calculate_base_utility, mkPart,
    show strHasSub "" "Full Tower" = false from by decide,
    show strHasSub "" "Mid Tower" = false from by decide,
    show strHasSub "" "Mini Tower" = false from by decide]
  simp

theorem cu_cpu_d : calculate_utility (mkPart "cpu-d" 150) "cpu" "universal"
    1000 = some (407/80) := by
  rw [calculate_utility, base_cpu_d]
  norm_num [iw_cpu, uw_cpu, mkPart, priceFactor]

theorem cu_mem_c : calculate_utility (mkPart "mem-c" 50) "memory" "universal"
    1000 = some (9/8) := by
  rw [calculate_utility, base_mem_c]
  norm_num [iw_memory, uw_memory, mkPart, priceFactor]

theorem cu_mb_c : calculate_utility (mkPart "mb-c" 40) "motherboard"
    "universal" 1000 = some (1/2) := by
  rw [calculate_utility, base_mb_c]
  norm_num [iw_motherboard, uw_motherboard, mkPart, priceFactor]

theorem cu_psu_c : calculate_utility (mkPart "psu-c" 30) "power_supply"
    "universal" 1000 = some (66/125) := by
  rw [calculate_utility, base_psu_c]
  norm_num [iw_power_supply, uw_power_supply, mkPart, priceFactor]

theorem cu_case_c : calculate_utility (mkPart "case-c" 20) "case"
    "universal" 1000 = some (49/200) := by
  rw [calculate_utility, base_case_c]
  norm_num [iw_case, uw_case, mkPart, priceFactor]

theorem sc_cpu_d : scoreItems [mkPart "cpu-d" 150] "cpu" "universal" 1000 =
    [⟨mkPart "cpu-d" 150, 407/80⟩] := by
  norm_num [scoreItems, List.filterMap_cons, List.filterMap_nil,
    mkPart_price, cu_cpu_d]

theorem sc_mem_c : scoreItems [mkPart "mem-c" 50] "memory" "universal" 1000 =
    [⟨mkPart "mem-c" 50, 9/8⟩] := by
  norm_num [scoreItems, List.filterMap_cons, List.filterMap_nil,
    mkPart_price, cu_mem_c]

theorem sc_mb_c : scoreItems [mkPart "mb-c" 40] "motherboard" "universal"
    1000 = [⟨mkPart "mb-c" 40, 1/2⟩] := by
  norm_num [scoreItems, List.filterMap_cons, List.filterMap_nil,
    mkPart_price, cu_mb_c]

theorem sc_psu_c : scoreItems [mkPart "psu-c" 30] "power_supply" "universal"
    1000 = [⟨mkPart "psu-c" 30, 66/125⟩] := by
  norm_num [scoreItems, List.filterMap_cons, List.filterMap_nil,
    mkPart_price, cu_psu_c]

theorem sc_case_c : scoreItems [mkPart "case-c" 20] "case" "universal"
    1000 = [⟨mkPart "case-c" 20, 49/200⟩] := by
  norm_num [scoreItems, List.filterMap_cons, List.filterMap_nil,
    mkPart_price, cu_case_c]

theorem c3_valid : validComponentsOf c3comps "universal" 1000 = c3valid := by
  rw [validComponentsOf, c3_filter]
  simp only [c3comps, List.filterMap_cons, List.filterMap_nil,
    sc_cpu_d, sc_mem_c, sc_mb_c, sc_psu_c, sc_case_c]
  simp [c3valid]

theorem c8_valid : validComponentsOf c8comps "universal" 1000 = c8valid := by
  rw [validComponentsOf, c8_filter]
  simp only [c8comps, List.filterMap_cons, List.filterMap_nil,
    sc_mem_c, sc_mb_c, sc_psu_c, sc_case_c]
  simp [c8valid]

theorem c3_brute : bruteSolve c3valid none 1000 = some [0, 0, 0, 0, 0] := by
  norm_num [bruteSolve, c3valid, allSels, feasibleSel, validSel,
    selTotalPrice, selTotalUtility, pickPrice, pickUtility, mkPart,
    List.range, List.range.loop]

theorem c3_run : generate_pc_build c3comps 1000 "universal" bruteSolve =
    .optimal "universal" "Универсальный" c3selection 290 (14971/2000) 710
      universalBudgetWeights := by
  simp only [generate_pc_build]
  rw [c3_valid]
  rw [if_neg (by simp [c3valid])]
  rw [if_pos (by decide)]
  rw [solve_mckp_low_opt bruteSolve c3valid 1000 "universal" [0, 0, 0, 0, 0]
    (by norm_num) c3_brute]
  rw [assembleOptimal]
  simp only [BuildResult.optimal.injEq]
  refine ⟨trivial, goalRuOf_universal, ?_, ?_, ?_, ?_, budgetWeightsFor_universal⟩
  · simp [selectedParts, c3valid, c3selection]
  · norm_num [selTotalPrice, pickPrice, c3valid, mkPart]
  · norm_num [selTotalUtility, pickUtility, c3valid, mkPart]
  · norm_num [selTotalPrice, pickPrice, c3valid, mkPart]

/-- Witness for C3: the invariants at the concrete optimal run on
`c3comps` (budget 1000, total price 290). -/
theorem c3_optimal_invariants_witness :
    (290 : ℚ) ≤ 1000 ∧ (710 : ℚ) = 1000 - 290 ∧
      ∀ cat ∈ requiredCategories,
        List.count cat (c3selection.map Prod.fst) = 1 :=
  c3_optimal_invariants bruteSolve bruteSolve_sound c3comps 1000
    "universal" "universal" "Универсальный" c3selection 290 (14971/2000) 710
    universalBudgetWeights (by decide) c3_run

theorem c8_run : generate_pc_build c8comps 1000 "universal" bruteSolve =
    .error "Missing components for categories: cpu" := by
  simp only [generate_pc_build]
  rw [c8_valid]
  rw [if_neg (by simp [c8valid])]
  rw [show missingCategoriesOf c8valid = ["cpu"] from by decide]
  rw [if_neg (by decide)]
  rfl

/-- C8 counterexample: a catalog with no cpu candidates yields the
`ERROR` result shape (`status ERROR`, message naming the missing
category), not the `INFEASIBLE` shape the claim prescribes — the
presentation layer renders the two shapes differently. -/
theorem c8_missing_mandatory_counterexample :
    generate_pc_build c8comps 1000 "universal" bruteSolve =
      .error "Missing components for categories: cpu" ∧
      (generate_pc_build c8comps 1000 "universal" bruteSolve).isInf =
        false := by
  refine ⟨c8_run, ?_⟩
  rw [c8_run]
  rfl

/-- C8 (amended): when some mandatory category is missing from the
scored candidates (and the candidate map is non-empty), the engine
returns the `ERROR` shape naming the missing categories, without
consulting the solver backend at all (the result is the same for every
backend `f`). -/
theorem c8_missing_mandatory_is_error
    (components : List (String × List Component)) (budget : ℚ)
    (goal : String) (f : Oracle)
    (h1 : (validComponentsOf components goal budget).isEmpty = false)
    (h2 : (missingCategoriesOf
      (validComponentsOf components goal budget)).isEmpty = false) :
    generate_pc_build components budget goal f =
      .error ("Missing components for categories: " ++
        String.intercalate ", "
          (missingCategoriesOf (validComponentsOf components goal budget))) := by
  simp only [generate_pc_build]
  rw [if_neg (by rw [h1]; exact Bool.false_ne_true)]
  rw [if_neg (by rw [h2]; exact Bool.false_ne_true)]

/-- Witness for C8 (amended): the cpu-less catalog produces the ERROR
shape with the missing category named, for the brute backend. -/
theorem c8_missing_mandatory_is_error_witness :
    generate_pc_build c8comps 1000 "universal" bruteSolve =
      .error ("Missing components for categories: " ++
        String.intercalate ", "
          (missingCategoriesOf (validComponentsOf c8comps "universal" 1000))) :=
  c8_missing_mandatory_is_error c8comps 1000 "universal" bruteSolve
    (by rw [c8_valid]; rfl) (by rw [c8_valid]; decide)

theorem fc_mem_w : filterCategory [mkPart "mem-w" 50] (3/20 * 1000) 1000 =
    [mkPart "mem-w" 50] := by
  norm_num [filterCategory, mkPart, sortStable, insertStable, sliceStep,
    priceKey]

theorem c9_filter : filter_components_by_goal c9comps "universal" 1000 =
    [("memory", [mkPart "mem-w" 50])] := by
  simp only [filter_components_by_goal, c9comps, List.filterMap_cons,
    List.filterMap_nil, uw_memory, fc_mem_w]
  simp

/-- Witness for C9: on a one-category catalog at budget 1000, the
filter's output satisfies the price bounds and the 1000-item cap. -/
theorem c9_filter_bounds_witness :
    ([mkPart "mem-w" 50] : List Component).length ≤ 1000 ∧
      ∀ c ∈ ([mkPart "mem-w" 50] : List Component), ∃ p : ℚ,
        c.price = some p ∧ 0 < p ∧
        p ≤ budgetWeightOf "universal" "memory" * 1000 *
          (if (1000 : ℚ) ≥ 2000 then 3
           else if (1000 : ℚ) ≥ 1000 then 25/10 else 2) :=
  c9_filter_bounds c9comps "universal" 1000 "memory" [mkPart "mem-w" 50]
    (by rw [c9_filter]; exact List.mem_singleton.mpr rfl)

end PcAssembler
